import Mathlib

/-!
Shallow embedding of `conformance/utils/suite/suite.go` from the
gateway-api conformance harness, together with theorems about its
test-selection and gating policy.

The Go file defines suite-level configuration (`ConformanceTestSuite`,
built by `New` from `Options`), per-test data (`ConformanceTest`), the
per-test gating procedure (`ConformanceTest.Run`) and the suite setup
procedure (`ConformanceTestSuite.Setup`).  Pure data is translated to
Lean structures; the side-effecting procedures are translated to pure
functions returning an explicit outcome together with the list of
externally visible effects (manifest applications, setup events).
-/

namespace GatewaySuite

/-- Type ExemptFeature from the source: a string label naming a feature an
implementation opts out of. -/
abbrev ExemptFeature := String

/-- The single declared exempt-feature constant. -/
def ExemptReferencePolicy : ExemptFeature := "ReferencePolicy"

/-- Type SupportedFeature from the source: a string label naming a feature
an implementation opts into. -/
abbrev SupportedFeature := String

/-- The single declared supported-feature constant. -/
def SupportReferencePolicy : SupportedFeature := "ReferencePolicy"

/-- Type GatewayChannel is declared as a Go int; its values are ordinals. -/
abbrev GatewayChannel := Int

/-- Constant ExperimentalChannel = 1 in the source. -/
def ExperimentalChannel : GatewayChannel := 1

/-- Constant StandardChannel = 2 in the source. -/
def StandardChannel : GatewayChannel := 2

/-- A value of the `roundtripper.RoundTripper` interface: either the
`DefaultRoundTripper` struct (which carries a `Debug` flag) or some other
implementation supplied by the caller, represented opaquely. -/
inductive RoundTripperImpl where
  | DefaultRoundTripper (Debug : Bool)
  | custom (impl : Nat)
deriving Repr, DecidableEq

namespace kubernetes

/-- The `kubernetes.Applier` struct as constructed by `New`: it carries
namespace labels and the listener-port override list. -/
structure Applier where
  NamespaceLabels : List (String × String)
  ValidUniqueListenerPorts : List Int
deriving Repr, DecidableEq

end kubernetes

/-- Struct ConformanceTestSuite from the source.  The cluster client is an
opaque, possibly-nil handle; the round-tripper interface value is likewise
possibly nil. -/
structure ConformanceTestSuite where
  Client : Option Nat
  RoundTripper : Option RoundTripperImpl
  GatewayClassName : String
  ControllerName : String
  Debug : Bool
  Cleanup : Bool
  BaseManifests : String
  Applier : kubernetes.Applier
  ExemptFeatures : List ExemptFeature
  SupportedFeatures : List SupportedFeature
  MinChannel : GatewayChannel
deriving Repr, DecidableEq

/-- Struct Options from the source, the argument of New. -/
structure Options where
  Client : Option Nat
  GatewayClassName : String
  Debug : Bool
  RoundTripper : Option RoundTripperImpl
  BaseManifests : String
  NamespaceLabels : List (String × String)
  ValidUniqueListenerPorts : List Int
  CleanupBaseResources : Bool
  ExemptFeatures : List ExemptFeature
  SupportedFeatures : List SupportedFeature
  MinChannel : GatewayChannel
deriving Repr, DecidableEq

/-- Function New from the source.  Note that the suite literal at line 123 of
the source reads `MinChannel: s.MinChannel`, not the local variable
`MinChannel` computed at lines 105-108; the embedding reproduces this
exactly. -/
def New (s : Options) : ConformanceTestSuite :=
  let roundTripper : Option RoundTripperImpl :=
    match s.RoundTripper with
    | none => some (RoundTripperImpl.DefaultRoundTripper s.Debug)
    | some r => some r
  let MinChannel : GatewayChannel :=
    if s.MinChannel = 0 then StandardChannel else s.MinChannel
  let suite : ConformanceTestSuite :=
    { Client := s.Client
      RoundTripper := roundTripper
      GatewayClassName := s.GatewayClassName
      ControllerName := ""
      Debug := s.Debug
      Cleanup := s.CleanupBaseResources
      BaseManifests := s.BaseManifests
      Applier :=
        { NamespaceLabels := s.NamespaceLabels
          ValidUniqueListenerPorts := s.ValidUniqueListenerPorts }
      ExemptFeatures := s.ExemptFeatures
      SupportedFeatures := s.SupportedFeatures
      MinChannel := s.MinChannel }
  -- apply defaults (the source only defaults BaseManifests here)
  let suite :=
    if suite.BaseManifests = "" then
      { suite with BaseManifests := "base/manifests.yaml" }
    else suite
  suite

/-- Struct ConformanceTest from the source.  The `Test` field is the Go test
body function, represented as an opaque handle. -/
structure ConformanceTest where
  ShortName : String
  Description : String
  Exemptions : List ExemptFeature
  Features : List SupportedFeature
  Manifests : List String
  Slow : Bool
  Parallel : Bool
  Test : Nat
  MinChannel : GatewayChannel
deriving Repr, DecidableEq

/-- Outcome of the per-test run procedure.  Each `skipped*` constructor
corresponds to one `t.Skip`/`t.Skipf` call site in the source and carries
the data interpolated into that call's diagnostic. -/
inductive RunOutcome where
  | skippedUnsupported (shortName : String) (feature : SupportedFeature)
  | skippedNotExempt (shortName : String) (feature : ExemptFeature)
  | skippedChannel (shortName : String) (minChannel : GatewayChannel)
  | ran
deriving Repr, DecidableEq

/-- Externally visible result of `ConformanceTest.Run`: whether the
parallel signal was given, which manifests were applied (in order), and
how the run ended. -/
structure RunResult where
  parallelSignaled : Bool
  appliedManifests : List String
  outcome : RunOutcome
deriving Repr, DecidableEq

/-- Method ConformanceTest.Run from the source.  `t.Skip` terminates the test
function, so the first feature (in declaration order) missing from the
suite's supported list decides the outcome, then the first exemption
missing from the suite's exempt list, then the channel comparison
`test.MinChannel < suite.MinChannel`; only if all three gates pass are
the test's manifests applied and the body invoked. -/
def ConformanceTest.Run (test : ConformanceTest) (suite : ConformanceTestSuite) :
    RunResult :=
  let parallelSignaled := test.Parallel
  match test.Features.find? (fun feature => !(suite.SupportedFeatures.contains feature)) with
  | some feature =>
      { parallelSignaled
        appliedManifests := []
        outcome := RunOutcome.skippedUnsupported test.ShortName feature }
  | none =>
    match test.Exemptions.find? (fun feature => !(suite.ExemptFeatures.contains feature)) with
    | some feature =>
        { parallelSignaled
          appliedManifests := []
          outcome := RunOutcome.skippedNotExempt test.ShortName feature }
    | none =>
      if test.MinChannel < suite.MinChannel then
        { parallelSignaled
          appliedManifests := []
          outcome := RunOutcome.skippedChannel test.ShortName suite.MinChannel }
      else
        { parallelSignaled
          appliedManifests := test.Manifests
          outcome := RunOutcome.ran }

/-- Method ConformanceTestSuite.Run from the source: each registered test is
run in its own named sub-test scope. -/
def ConformanceTestSuite.Run (suite : ConformanceTestSuite)
    (tests : List ConformanceTest) : List (String × RunResult) :=
  tests.map (fun test => (test.ShortName, test.Run suite))

/-- Modelled from the spec: the outcomes of the three external
collaborators invoked by `Setup`, whose code lives outside this file
(`kubernetes.GWCMustBeAccepted`, `Applier.MustApplyWithCleanup`,
`kubernetes.NamespacesMustBeReady`).  The acceptance checker "blocks
until the implementation's class object is marked accepted, returning the
controller identity string" within the bound, so its result is the
controller name when acceptance is observed in time and `none` otherwise;
the applier and readiness checker either succeed or surface a failure. -/
structure SetupEnv where
  gwcAccepted : Option String
  applyBaseOk : Bool
  namespacesReady : Bool
deriving Repr, DecidableEq

/-- One externally visible step of `Setup`, with the arguments the source
passes to the corresponding collaborator (including the literal time
bounds 180 and 300). -/
inductive SetupEvent where
  | acceptanceCheck (className : String) (bound : Nat)
  | applyBase (manifests : String) (className : String) (cleanup : Bool)
  | namespacesReadyWait (namespaces : List String) (bound : Nat)
deriving Repr, DecidableEq

/-- Whether `Setup` ran to completion or was aborted by a `Must*`
collaborator failing the run (a test-framework fatal). -/
inductive SetupResult where
  | fatal
  | ok
deriving Repr, DecidableEq

/-- The namespace list hard-coded in Setup. -/
def setupNamespaces : List String :=
  ["gateway-conformance-infra",
   "gateway-conformance-app-backend",
   "gateway-conformance-web-backend"]

/-- Method ConformanceTestSuite.Setup from the source: it asserts acceptance
of the gateway class within 180 time-units (recording the returned
controller name in `suite.ControllerName`), then applies the base
manifests with cleanup registration, then waits up to 300 time-units for
the three conformance namespaces to be ready.  A failing collaborator is
fatal and stops the procedure at that point.  The result is the updated
suite, the ordered event trace, and the outcome. -/
def ConformanceTestSuite.Setup (suite : ConformanceTestSuite) (env : SetupEnv) :
    ConformanceTestSuite × List SetupEvent × SetupResult :=
  match env.gwcAccepted with
  | none =>
      (suite, [SetupEvent.acceptanceCheck suite.GatewayClassName 180], SetupResult.fatal)
  | some controllerName =>
    let suite := { suite with ControllerName := controllerName }
    let events := [SetupEvent.acceptanceCheck suite.GatewayClassName 180,
                   SetupEvent.applyBase suite.BaseManifests suite.GatewayClassName suite.Cleanup]
    if !env.applyBaseOk then
      (suite, events, SetupResult.fatal)
    else
      let events := events ++ [SetupEvent.namespacesReadyWait setupNamespaces 300]
      if !env.namespacesReady then
        (suite, events, SetupResult.fatal)
      else
        (suite, events, SetupResult.ok)

/-! ### Concrete sample values used by counterexamples and witnesses -/

/-- A sample conformance test with the given gate-relevant fields. -/
def sampleTest (features : List SupportedFeature) (exemptions : List ExemptFeature)
    (minChannel : GatewayChannel) : ConformanceTest :=
  { ShortName := "t"
    Description := "d"
    Exemptions := exemptions
    Features := features
    Manifests := ["m1.yaml"]
    Slow := false
    Parallel := false
    Test := 0
    MinChannel := minChannel }

/-- A sample suite with the given gate-relevant fields. -/
def sampleSuite (supported : List SupportedFeature) (exempt : List ExemptFeature)
    (minChannel : GatewayChannel) : ConformanceTestSuite :=
  { Client := none
    RoundTripper := none
    GatewayClassName := "gc"
    ControllerName := ""
    Debug := false
    Cleanup := false
    BaseManifests := "base/manifests.yaml"
    Applier := { NamespaceLabels := [], ValidUniqueListenerPorts := [] }
    ExemptFeatures := exempt
    SupportedFeatures := supported
    MinChannel := minChannel }

/-- An Options value that leaves round-tripper, manifest path and channel
at their zero values. -/
def optionsUnsetChannel : Options :=
  { Client := none
    GatewayClassName := "gc"
    Debug := false
    RoundTripper := none
    BaseManifests := ""
    NamespaceLabels := []
    ValidUniqueListenerPorts := []
    CleanupBaseResources := false
    ExemptFeatures := []
    SupportedFeatures := []
    MinChannel := 0 }

/-- An Options value carrying an explicit manifest path. -/
def optionsWithManifests : Options :=
  { optionsUnsetChannel with BaseManifests := "custom.yaml" }

/-- An Options value carrying a caller-supplied round-tripper. -/
def optionsWithRT : Options :=
  { optionsUnsetChannel with RoundTripper := some (RoundTripperImpl.custom 7) }

/-! ### Helper lemmas about the run procedure -/

/-- The feature scan returns none exactly when every scanned feature is in
the reference list. -/
lemma gatePass_iff (l sup : List String) :
    l.find? (fun f => !(sup.contains f)) = none ↔ ∀ f ∈ l, f ∈ sup := by
  simp [List.find?_eq_none, List.contains]

/-- A hit of the feature scan is a scanned feature missing from the
reference list. -/
lemma gateFail_of_some {l sup : List String} {f : String}
    (h : l.find? (fun g => !(sup.contains g)) = some f) : f ∈ l ∧ f ∉ sup := by
  refine ⟨List.mem_of_find?_eq_some h, ?_⟩
  have hp := List.find?_some h
  simpa [List.contains] using hp

/-- If some scanned feature is missing from the reference list, the scan
hits. -/
lemma gateFail_exists {l sup : List String} (h : ∃ f ∈ l, f ∉ sup) :
    ∃ g, l.find? (fun f => !(sup.contains f)) = some g := by
  cases hf : l.find? (fun f => !(sup.contains f)) with
  | none =>
      rcases h with ⟨f, hfl, hfs⟩
      exact absurd ((gatePass_iff l sup).mp hf f hfl) hfs
  | some g => exact ⟨g, rfl⟩

/-- Run equation: a missing required feature ends the run at the first skip. -/
lemma run_features_some {test : ConformanceTest} {suite : ConformanceTestSuite} {f : String}
    (h : test.Features.find? (fun feature => !(suite.SupportedFeatures.contains feature)) = some f) :
    test.Run suite =
      { parallelSignaled := test.Parallel
        appliedManifests := []
        outcome := RunOutcome.skippedUnsupported test.ShortName f } := by
  simp only [ConformanceTest.Run, h]

/-- Run equation: a missing exemption feature ends the run at the second
skip. -/
lemma run_exempt_some {test : ConformanceTest} {suite : ConformanceTestSuite} {f : String}
    (hf : test.Features.find? (fun feature => !(suite.SupportedFeatures.contains feature)) = none)
    (he : test.Exemptions.find? (fun feature => !(suite.ExemptFeatures.contains feature)) = some f) :
    test.Run suite =
      { parallelSignaled := test.Parallel
        appliedManifests := []
        outcome := RunOutcome.skippedNotExempt test.ShortName f } := by
  simp only [ConformanceTest.Run, hf, he]

/-- Run equation: with both feature gates passed, a low test channel ends
the run at the channel skip. -/
lemma run_channel_skip {test : ConformanceTest} {suite : ConformanceTestSuite}
    (hf : test.Features.find? (fun feature => !(suite.SupportedFeatures.contains feature)) = none)
    (he : test.Exemptions.find? (fun feature => !(suite.ExemptFeatures.contains feature)) = none)
    (hc : test.MinChannel < suite.MinChannel) :
    test.Run suite =
      { parallelSignaled := test.Parallel
        appliedManifests := []
        outcome := RunOutcome.skippedChannel test.ShortName suite.MinChannel } := by
  simp only [ConformanceTest.Run, hf, he, if_pos hc]

/-- Run equation: with all three gates passed, the manifests are applied
and the body runs. -/
lemma run_pass {test : ConformanceTest} {suite : ConformanceTestSuite}
    (hf : test.Features.find? (fun feature => !(suite.SupportedFeatures.contains feature)) = none)
    (he : test.Exemptions.find? (fun feature => !(suite.ExemptFeatures.contains feature)) = none)
    (hc : ¬ test.MinChannel < suite.MinChannel) :
    test.Run suite =
      { parallelSignaled := test.Parallel
        appliedManifests := test.Manifests
        outcome := RunOutcome.ran } := by
  simp only [ConformanceTest.Run, hf, he, if_neg hc]

/-- The gate characterization of a run that reaches the test body. -/
lemma run_ran_iff (test : ConformanceTest) (suite : ConformanceTestSuite) :
    (test.Run suite).outcome = RunOutcome.ran ↔
      ((∀ f ∈ test.Features, f ∈ suite.SupportedFeatures) ∧
       (∀ f ∈ test.Exemptions, f ∈ suite.ExemptFeatures) ∧
       suite.MinChannel ≤ test.MinChannel) := by
  constructor
  · intro h
    cases hf : test.Features.find? (fun feature => !(suite.SupportedFeatures.contains feature)) with
    | some f => rw [run_features_some hf] at h; simp at h
    | none =>
      cases he : test.Exemptions.find? (fun feature => !(suite.ExemptFeatures.contains feature)) with
      | some f => rw [run_exempt_some hf he] at h; simp at h
      | none =>
        by_cases hc : test.MinChannel < suite.MinChannel
        · rw [run_channel_skip hf he hc] at h; simp at h
        · exact ⟨(gatePass_iff _ _).mp hf, (gatePass_iff _ _).mp he, not_lt.mp hc⟩
  · rintro ⟨h1, h2, h3⟩
    rw [run_pass ((gatePass_iff _ _).mpr h1) ((gatePass_iff _ _).mpr h2) (not_lt.mpr h3)]

/-- A run that does not reach the test body applies no manifests. -/
lemma applied_nil_of_not_ran {test : ConformanceTest} {suite : ConformanceTestSuite}
    (h : (test.Run suite).outcome ≠ RunOutcome.ran) :
    (test.Run suite).appliedManifests = [] := by
  cases hf : test.Features.find? (fun feature => !(suite.SupportedFeatures.contains feature)) with
  | some f => rw [run_features_some hf]
  | none =>
    cases he : test.Exemptions.find? (fun feature => !(suite.ExemptFeatures.contains feature)) with
    | some f => rw [run_exempt_some hf he]
    | none =>
      by_cases hc : test.MinChannel < suite.MinChannel
      · rw [run_channel_skip hf he hc]
      · exact absurd (by rw [run_pass hf he hc]) h

/-- A channel-gate skip implies the channel comparison held. -/
lemma channel_skip_imp {test : ConformanceTest} {suite : ConformanceTestSuite}
    {n : String} {c : GatewayChannel}
    (h : (test.Run suite).outcome = RunOutcome.skippedChannel n c) :
    test.MinChannel < suite.MinChannel := by
  cases hf : test.Features.find? (fun feature => !(suite.SupportedFeatures.contains feature)) with
  | some f => rw [run_features_some hf] at h; simp at h
  | none =>
    cases he : test.Exemptions.find? (fun feature => !(suite.ExemptFeatures.contains feature)) with
    | some f => rw [run_exempt_some hf he] at h; simp at h
    | none =>
      by_cases hc : test.MinChannel < suite.MinChannel
      · exact hc
      · rw [run_pass hf he hc] at h; simp at h

/-- The suite field MinChannel of a constructed suite is the Options
field verbatim (the defaulted local of lines 105-108 is discarded). -/
lemma new_min_channel (s : Options) : (New s).MinChannel = s.MinChannel := by
  simp only [New]
  split <;> rfl

/-! ### Claim theorems -/

/-- C1: for every test T and suite S, the body of T is executed exactly
when every required feature of T is in S's supported list, every
exemption of T is in S's exempted list, and T's minimum channel ordinal
is at least S's configured minimum channel ordinal; otherwise T is
skipped. -/
theorem c1_body_executed_iff_gates_pass (test : ConformanceTest) (suite : ConformanceTestSuite) :
    (test.Run suite).outcome = RunOutcome.ran ↔
      ((∀ f ∈ test.Features, f ∈ suite.SupportedFeatures) ∧
       (∀ f ∈ test.Exemptions, f ∈ suite.ExemptFeatures) ∧
       suite.MinChannel ≤ test.MinChannel) :=
  run_ran_iff test suite

/-- C3 counterexample: a test whose minimum channel ordinal (2, Standard)
strictly exceeds the suite's configured minimum channel ordinal (1,
Experimental) is NOT skipped by the channel gate — the run reaches the
test body, contradicting the claim that the gate skips exactly when the
test's ordinal exceeds the suite's. -/
theorem c3_counterexample :
    (sampleSuite [] [] ExperimentalChannel).MinChannel
        < (sampleTest [] [] StandardChannel).MinChannel ∧
    ((sampleTest [] [] StandardChannel).Run (sampleSuite [] [] ExperimentalChannel)).outcome
        = RunOutcome.ran := by
  constructor
  · decide
  · rfl

/-- C3 amended: when the two feature gates pass, the channel gate skips
the test exactly when the test's minimum channel ordinal is strictly LESS
than the suite's configured minimum channel ordinal (the source compares
test.MinChannel < suite.MinChannel). -/
theorem c3_amended_channel_gate (test : ConformanceTest) (suite : ConformanceTestSuite)
    (hf : ∀ f ∈ test.Features, f ∈ suite.SupportedFeatures)
    (he : ∀ f ∈ test.Exemptions, f ∈ suite.ExemptFeatures) :
    ((test.Run suite).outcome = RunOutcome.skippedChannel test.ShortName suite.MinChannel ↔
      test.MinChannel < suite.MinChannel) := by
  have hf0 := (gatePass_iff _ _).mpr hf
  have he0 := (gatePass_iff _ _).mpr he
  constructor
  · exact channel_skip_imp
  · intro hc
    rw [run_channel_skip hf0 he0 hc]

/-- C3 amended, witness: a concrete experimental-channel test (ordinal 1)
run under a standard-channel suite (ordinal 2) is skipped by the channel
gate. -/
theorem c3_amended_witness :
    ((sampleTest [] [] ExperimentalChannel).Run (sampleSuite [] [] StandardChannel)).outcome
      = RunOutcome.skippedChannel "t" StandardChannel := by
  have h := c3_amended_channel_gate (sampleTest [] [] ExperimentalChannel)
    (sampleSuite [] [] StandardChannel) (by decide) (by decide)
  exact h.mpr (by decide)

/-- C4: if any of the three gate checks fails, the per-test run applies
no manifest and never reaches the test body. -/
theorem c4_gate_failure_applies_no_manifests (test : ConformanceTest)
    (suite : ConformanceTestSuite)
    (h : ¬((∀ f ∈ test.Features, f ∈ suite.SupportedFeatures) ∧
           (∀ f ∈ test.Exemptions, f ∈ suite.ExemptFeatures) ∧
           suite.MinChannel ≤ test.MinChannel)) :
    (test.Run suite).appliedManifests = [] ∧
    (test.Run suite).outcome ≠ RunOutcome.ran := by
  have hnr : (test.Run suite).outcome ≠ RunOutcome.ran := fun hr =>
    h ((run_ran_iff test suite).mp hr)
  exact ⟨applied_nil_of_not_ran hnr, hnr⟩

/-- C4 witness: a test requiring feature X under a suite supporting
nothing applies no manifest and does not run. -/
theorem c4_witness :
    ((sampleTest ["X"] [] StandardChannel).Run (sampleSuite [] [] StandardChannel)).appliedManifests = [] ∧
    ((sampleTest ["X"] [] StandardChannel).Run (sampleSuite [] [] StandardChannel)).outcome
      ≠ RunOutcome.ran :=
  c4_gate_failure_applies_no_manifests (sampleTest ["X"] [] StandardChannel)
    (sampleSuite [] [] StandardChannel) (by decide)

/-- C5: the gates are evaluated in the fixed order required features,
exemption features, channel; the first failing gate decides the whole run
result (no manifests, skip outcome of that gate), regardless of the state
of the later gates. -/
theorem c5_gate_order (test : ConformanceTest) (suite : ConformanceTestSuite) :
    ((∃ f ∈ test.Features, f ∉ suite.SupportedFeatures) →
      ∃ g, g ∈ test.Features ∧ g ∉ suite.SupportedFeatures ∧
        test.Run suite =
          { parallelSignaled := test.Parallel
            appliedManifests := []
            outcome := RunOutcome.skippedUnsupported test.ShortName g }) ∧
    ((∀ f ∈ test.Features, f ∈ suite.SupportedFeatures) →
      (∃ f ∈ test.Exemptions, f ∉ suite.ExemptFeatures) →
      ∃ g, g ∈ test.Exemptions ∧ g ∉ suite.ExemptFeatures ∧
        test.Run suite =
          { parallelSignaled := test.Parallel
            appliedManifests := []
            outcome := RunOutcome.skippedNotExempt test.ShortName g }) ∧
    ((∀ f ∈ test.Features, f ∈ suite.SupportedFeatures) →
      (∀ f ∈ test.Exemptions, f ∈ suite.ExemptFeatures) →
      test.MinChannel < suite.MinChannel →
        test.Run suite =
          { parallelSignaled := test.Parallel
            appliedManifests := []
            outcome := RunOutcome.skippedChannel test.ShortName suite.MinChannel }) := by
  refine ⟨?_, ?_, ?_⟩
  · intro h
    obtain ⟨g, hg⟩ := gateFail_exists h
    obtain ⟨hmem, hmiss⟩ := gateFail_of_some hg
    exact ⟨g, hmem, hmiss, run_features_some hg⟩
  · intro h1 h
    obtain ⟨g, hg⟩ := gateFail_exists h
    obtain ⟨hmem, hmiss⟩ := gateFail_of_some hg
    exact ⟨g, hmem, hmiss, run_exempt_some ((gatePass_iff _ _).mpr h1) hg⟩
  · intro h1 h2 hc
    exact run_channel_skip ((gatePass_iff _ _).mpr h1) ((gatePass_iff _ _).mpr h2) hc

/-- C5 witness: a test that both requires an unsupported feature and has
a channel ordinal below the suite's is skipped by the required-feature
gate (the first gate in the order), not the channel gate. -/
theorem c5_witness :
    (sampleTest ["X"] [] ExperimentalChannel).Run (sampleSuite [] [] StandardChannel) =
      { parallelSignaled := false
        appliedManifests := []
        outcome := RunOutcome.skippedUnsupported "t" "X" } := by
  obtain ⟨g, hg, -, heq⟩ :=
    (c5_gate_order (sampleTest ["X"] [] ExperimentalChannel)
      (sampleSuite [] [] StandardChannel)).1 (by decide)
  have hgx : g = "X" := by simpa [sampleTest] using hg
  subst hgx
  rw [heq]
  rfl

/-- Event classifier: acceptance-check events. -/
def SetupEvent.isAcceptanceCheck : SetupEvent → Bool
  | SetupEvent.acceptanceCheck _ _ => true
  | _ => false

/-- Event classifier: base-manifest application events. -/
def SetupEvent.isApplyBase : SetupEvent → Bool
  | SetupEvent.applyBase _ _ _ => true
  | _ => false

/-- Event classifier: namespace-readiness wait events. -/
def SetupEvent.isReadyWait : SetupEvent → Bool
  | SetupEvent.namespacesReadyWait _ _ => true
  | _ => false

/-- C2: constructing a suite from Options whose channel field is the zero
value does NOT yield the baseline StandardChannel: the suite's MinChannel
stays 0, because the suite literal reads the Options field directly and
discards the defaulted local variable. -/
theorem c2_channel_default_discarded :
    (New optionsUnsetChannel).MinChannel = 0 ∧
    StandardChannel ≠ 0 ∧
    (New optionsUnsetChannel).MinChannel ≠ StandardChannel := by
  refine ⟨?_, by decide, ?_⟩
  · rw [new_min_channel]
    rfl
  · rw [new_min_channel]
    decide

/-- C6: if the acceptance checker does not observe the class accepted
within its 180 time-unit bound, Setup ends fatally with no base-manifest
application; moreover for every environment the event trace keeps the
fixed order acceptance check, then base-manifest application, then the
300 time-unit namespace-readiness wait. -/
theorem c6_acceptance_gates_setup (suite : ConformanceTestSuite) (env : SetupEnv)
    (h : env.gwcAccepted = none) :
    ((suite.Setup env).2.2 = SetupResult.fatal ∧
      ∀ e ∈ (suite.Setup env).2.1, e.isApplyBase = false) ∧
    ∀ env2 : SetupEnv,
      (suite.Setup env2).2.1 =
        ((suite.Setup env2).2.1.filter SetupEvent.isAcceptanceCheck) ++
        ((suite.Setup env2).2.1.filter SetupEvent.isApplyBase) ++
        ((suite.Setup env2).2.1.filter SetupEvent.isReadyWait) := by
  constructor
  · constructor
    · simp [ConformanceTestSuite.Setup, h]
    · simp [ConformanceTestSuite.Setup, h, SetupEvent.isApplyBase]
  · intro env2
    rcases env2 with ⟨acc, aok, nsok⟩
    cases acc <;> cases aok <;> cases nsok <;>
      simp [ConformanceTestSuite.Setup, SetupEvent.isAcceptanceCheck,
        SetupEvent.isApplyBase, SetupEvent.isReadyWait, setupNamespaces]

/-- C6 witness: a concrete suite in an environment where acceptance is
not observed ends Setup fatally. -/
theorem c6_witness :
    ((sampleSuite [] [] StandardChannel).Setup
        { gwcAccepted := none, applyBaseOk := true, namespacesReady := true }).2.2
      = SetupResult.fatal :=
  ((c6_acceptance_gates_setup (sampleSuite [] [] StandardChannel)
      { gwcAccepted := none, applyBaseOk := true, namespacesReady := true } rfl).1).1

/-- C7: an empty manifest-path field is defaulted to base/manifests.yaml
by New; a non-empty manifest path is kept as given. -/
theorem c7_base_manifests_default (s : Options) :
    (s.BaseManifests = "" → (New s).BaseManifests = "base/manifests.yaml") ∧
    (s.BaseManifests ≠ "" → (New s).BaseManifests = s.BaseManifests) := by
  constructor <;> intro h <;> simp [New, h]

/-- C7 witness: the empty path is defaulted, a custom path is kept. -/
theorem c7_witness :
    (New optionsUnsetChannel).BaseManifests = "base/manifests.yaml" ∧
    (New optionsWithManifests).BaseManifests = "custom.yaml" :=
  ⟨(c7_base_manifests_default optionsUnsetChannel).1 rfl,
   (c7_base_manifests_default optionsWithManifests).2 (by decide)⟩

/-- C8: Setup assigns only the ControllerName field of the suite; every
other suite field is unchanged in every environment. -/
theorem c8_setup_frame (suite : ConformanceTestSuite) (env : SetupEnv) :
    (suite.Setup env).1.Client = suite.Client ∧
    (suite.Setup env).1.RoundTripper = suite.RoundTripper ∧
    (suite.Setup env).1.GatewayClassName = suite.GatewayClassName ∧
    (suite.Setup env).1.Debug = suite.Debug ∧
    (suite.Setup env).1.Cleanup = suite.Cleanup ∧
    (suite.Setup env).1.BaseManifests = suite.BaseManifests ∧
    (suite.Setup env).1.Applier = suite.Applier ∧
    (suite.Setup env).1.ExemptFeatures = suite.ExemptFeatures ∧
    (suite.Setup env).1.SupportedFeatures = suite.SupportedFeatures ∧
    (suite.Setup env).1.MinChannel = suite.MinChannel := by
  rcases env with ⟨acc, aok, nsok⟩
  cases acc <;> cases aok <;> cases nsok <;>
    simp [ConformanceTestSuite.Setup]

/-- C9: a nil round-tripper in Options is replaced by the default
round-tripper carrying the Options' debug flag; a provided round-tripper
is used as given. -/
theorem c9_round_tripper_default (s : Options) :
    (s.RoundTripper = none →
      (New s).RoundTripper = some (RoundTripperImpl.DefaultRoundTripper s.Debug)) ∧
    (∀ r, s.RoundTripper = some r → (New s).RoundTripper = some r) := by
  constructor
  · intro h
    simp only [New, h]
    split <;> rfl
  · intro r h
    simp only [New, h]
    split <;> rfl

/-- C9 witness: nil round-tripper gets the default carrying the debug
flag; a supplied round-tripper is kept. -/
theorem c9_witness :
    (New optionsUnsetChannel).RoundTripper
        = some (RoundTripperImpl.DefaultRoundTripper false) ∧
    (New optionsWithRT).RoundTripper = some (RoundTripperImpl.custom 7) :=
  ⟨(c9_round_tripper_default optionsUnsetChannel).1 rfl,
   (c9_round_tripper_default optionsWithRT).2 (RoundTripperImpl.custom 7) rfl⟩

/-- C10: when Options leaves the channel at its zero value, the suite New
builds has MinChannel 0, and the channel gate then never skips any test
whose channel ordinal is not below zero. -/
theorem c10_zero_channel_never_channel_skips (s : Options) (test : ConformanceTest)
    (hs : s.MinChannel = 0) (ht : 0 ≤ test.MinChannel) :
    (New s).MinChannel = 0 ∧
    ∀ n c, (test.Run (New s)).outcome ≠ RunOutcome.skippedChannel n c := by
  have hmc : (New s).MinChannel = 0 := by rw [new_min_channel, hs]
  refine ⟨hmc, ?_⟩
  intro n c h
  have hlt := channel_skip_imp h
  rw [hmc] at hlt
  exact absurd ht (not_le.mpr hlt)

/-- C10 witness: a standard-channel test under the suite built from
channel-unset Options is not channel-skipped. -/
theorem c10_witness :
    (New optionsUnsetChannel).MinChannel = 0 ∧
    ∀ n c, ((sampleTest [] [] StandardChannel).Run (New optionsUnsetChannel)).outcome
      ≠ RunOutcome.skippedChannel n c :=
  c10_zero_channel_never_channel_skips optionsUnsetChannel
    (sampleTest [] [] StandardChannel) rfl (by decide)

end GatewaySuite
